/-
Verification of the GCfit likelihood core against its specification.

Shallow embedding of the relevant parts of the repository:
  * fitter/likelihoods.py : `posterior`, `log_likelihood`,
    `likelihood_number_density`, `pc2arcsec`, `DEFAULT_INITIALS`
  * fitter/data.py : `Model.__init__` mass-bin assembly, `Dataset.build_err`
  * fitter/probabilities/pulsars.py : `cluster_component`

Conventions of the embedding:
  * Machine floats are modelled by exact rationals (ℚ).  Transcendental /
    irrational float primitives used by the code (np.arctan, np.log,
    np.sqrt) and the opaque numeric-library services (scipy splines,
    np.geomspace, astropy unit conversion factors) are passed in as
    explicit function parameters, so every theorem holds for every
    interpretation of those primitives.
  * Python exceptions are modelled by `Except PyExc`; the source only ever
    raises (and catches) `ValueError` and `KeyError` in the embedded
    region, so `PyExc` has those two constructors.
  * numpy arrays are modelled by `List ℚ`; boolean-mask indexing by
    `applyMask`, `np.interp` by `np_interp`, `np.linspace` by
    `np_linspace`, `np.diff` by `np_diff`, `np.trapz` by `np_trapz`.
  * astropy units are erased; explicit unit-conversion factors of the code
    appear as rational constants or opaque parameters.
-/

import Mathlib

/-- Python exception classes raised or caught in the embedded code:
`ValueError` (non-convergent limepy model, out-of-bounds pulsar radius,
missing uncertainty in `Dataset.build_err`) and `KeyError`
(missing θ parameter, missing dataset variable). -/
inductive PyExc : Type
  | valueError : PyExc
  | keyError : PyExc
deriving DecidableEq, Repr

instance {ε α : Type} [DecidableEq ε] [DecidableEq α] : DecidableEq (Except ε α) := fun x y =>
  match x, y with
  | .error a, .error b =>
      if h : a = b then .isTrue (by rw [h])
      else .isFalse (by intro hc; cases hc; exact h rfl)
  | .error _, .ok _ => .isFalse (by intro hc; cases hc)
  | .ok _, .error _ => .isFalse (by intro hc; cases hc)
  | .ok a, .ok b =>
      if h : a = b then .isTrue (by rw [h])
      else .isFalse (by intro hc; cases hc; exact h rfl)

/-- Boolean-mask indexing `arr[mask]` of numpy, zipping the value list with
the mask list. -/
def applyMask {α : Type} : List α → List Bool → List α
  | [], _ => []
  | _, [] => []
  | a :: as, b :: bs => if b then a :: applyMask as bs else applyMask as bs

/-- Dictionary lookup on an association list with string keys, modelling
`Dataset._dict_variables[key]`. -/
def lookupS : List (String × List ℚ) → String → Option (List ℚ)
  | [], _ => none
  | (k, v) :: rest, key => if k = key then some v else lookupS rest key

/-- Piecewise-linear interpolation `np.interp(x, xp, fp)` for increasing
knots `xp`: clamps to the first / last value outside the knot range. -/
def np_interp (x : ℚ) : List ℚ → List ℚ → ℚ
  | x0 :: x1 :: xs, y0 :: y1 :: ys =>
      if x ≤ x0 then y0
      else if x ≤ x1 then y0 + (y1 - y0) * (x - x0) / (x1 - x0)
      else np_interp x (x1 :: xs) (y1 :: ys)
  | [_], [y0] => y0
  | _, _ => 0

/-- Evenly spaced grid `np.linspace(a, b, n)` (endpoint included). -/
def np_linspace (a b : ℚ) (n : ℕ) : List ℚ :=
  if n ≤ 1 then List.replicate n a
  else (List.range n).map (fun i => a + (b - a) * i / (n - 1))

/-- Consecutive differences `np.diff`. -/
def np_diff (l : List ℚ) : List ℚ :=
  List.zipWith (fun a b => b - a) l l.tail

/-- Trapezoidal-rule integral `np.trapz(y, x)`. -/
def np_trapz : List ℚ → List ℚ → ℚ
  | y0 :: y1 :: ys, x0 :: x1 :: xs =>
      (y0 + y1) / 2 * (x1 - x0) + np_trapz (y1 :: ys) (x1 :: xs)
  | _, _ => 0

/-- Replacement of the last entry of a list, modelling `z[-1] = zt`. -/
def setLast : List ℚ → ℚ → List ℚ
  | [], _ => []
  | [_], v => [v]
  | a :: b :: rest, v => a :: setLast (b :: rest) v

/-- Slice-assignment of zeros `arr[:lo] = 0; arr[hi:] = 0` (indices as
integers; in the embedded code both bounds are nonnegative). -/
def zeroOutside (lo hi : ℤ) (l : List ℚ) : List ℚ :=
  l.enum.map (fun p => if (p.1 : ℤ) < lo ∨ hi ≤ (p.1 : ℤ) then 0 else p.2)

/-
Embedding of fitter/likelihoods.py, lines 574-617: `log_likelihood` and
`posterior`.  The call `Model(theta, observations)` invokes the external
limepy / ssptools solvers, so its outcome is passed in as an
`Except PyExc M` value (ValueError = non-convergent model, KeyError =
missing required θ parameters per fitter/data.py line 383).  The
registered likelihood components `L_components` are a runtime argument of
`posterior` in the source as well; each is modelled as a function from the
built model to an `Except PyExc` log-likelihood, where the numeric value
`-np.inf` is modelled by `⊥ : WithBot ℚ`.
-/

/-- Canonical θ parameter names, in the order of `DEFAULT_INITIALS`
(fitter/data.py lines 15-29). -/
inductive Param : Type
  | W0 | M | rh | ra | g | delta | s2 | F | a1 | a2 | a3 | BHret | d
deriving DecidableEq, Repr

/-- Default initial values of fitter/data.py `DEFAULT_INITIALS`; the list
order is the canonical parameter ordering. -/
def DEFAULT_INITIALS : List (Param × ℚ) :=
  [(.W0, 6), (.M, 69/100), (.rh, 288/100), (.ra, 123/100), (.g, 3/4),
   (.delta, 45/100), (.s2, 1/10), (.F, 45/100), (.a1, 1/2), (.a2, 13/10),
   (.a3, 5/2), (.BHret, 1/2), (.d, 6405/1000)]

/-- Dictionary lookup on an association list keyed by `Param`. -/
def lookupP : List (Param × ℚ) → Param → Option ℚ
  | [], _ => none
  | (k, v) :: rest, key => if k = key then some v else lookupP rest key

/-- Variable parameters `sorted(DEFAULT_INITIALS.keys() - fixed.keys(),
key=list(DEFAULT_INITIALS).index)`: the set difference sorted by canonical
index is the order-preserving filter of the canonical list. -/
def variable_params (fixed : List (Param × ℚ)) : List Param :=
  (DEFAULT_INITIALS.map Prod.fst).filter (fun p => (lookupP fixed p).isNone)

/-- Lookup in `zip(params, theta)` (as a list of pairs). -/
def lookupZip : List (Param × ℚ) → Param → Option ℚ
  | [], _ => none
  | (k, v) :: rest, key => if k = key then some v else lookupZip rest key

/-- Merged θ dictionary `dict(zip(params, theta), **fixed_initials)`
(fitter/likelihoods.py line 599): fixed entries override zipped ones. -/
def mergeTheta (theta_free : List ℚ) (fixed : List (Param × ℚ)) (p : Param) : Option ℚ :=
  match lookupP fixed p with
  | some v => some v
  | none => lookupZip ((variable_params fixed).zip theta_free) p

/-- Dictionary access `theta[p]`, raising `KeyError` when absent. -/
def getP (θ : Param → Option ℚ) (p : Param) : Except PyExc ℚ :=
  match θ p with
  | some v => Except.ok v
  | none => Except.error .keyError

/-- Hard prior-bound condition of `posterior` (fitter/likelihoods.py lines
603-609), with Python's left-to-right short-circuit evaluation of the
chained `and`s: a failing bound stops further `theta[...]` lookups. -/
def checkBounds (θ : Param → Option ℚ) : Except PyExc Bool := do
  let w0 ← getP θ .W0
  if ¬ (3 < w0 ∧ w0 < 20) then return false
  let rh ← getP θ .rh
  if ¬ (1/2 < rh ∧ rh < 15) then return false
  let m ← getP θ .M
  if ¬ (1/100 < m ∧ m < 10) then return false
  let ra ← getP θ .ra
  if ¬ (0 < ra ∧ ra < 5) then return false
  let g ← getP θ .g
  if ¬ (0 < g ∧ g < 23/10) then return false
  let δ ← getP θ .delta
  if ¬ (3/10 < δ ∧ δ < 1/2) then return false
  let s2 ← getP θ .s2
  if ¬ (0 < s2 ∧ s2 < 10) then return false
  let f ← getP θ .F
  if ¬ (1/10 < f ∧ f < 1/2) then return false
  let a1 ← getP θ .a1
  if ¬ (-2 < a1 ∧ a1 < 6) then return false
  let a2 ← getP θ .a2
  if ¬ (-2 < a2 ∧ a2 < 6) then return false
  let a3 ← getP θ .a3
  if ¬ (-2 < a3 ∧ a3 < 6) then return false
  let bh ← getP θ .BHret
  if ¬ (0 < bh ∧ bh < 100) then return false
  let d ← getP θ .d
  if ¬ (4 < d ∧ d < 8) then return false
  return true

/-- Embedding of `log_likelihood` (fitter/likelihoods.py lines 574-588):
the `try` block wraps only the `Model(theta, observations)` call and
catches only `ValueError`; component evaluations run outside it, in list
order, and their first exception propagates. -/
def log_likelihood {M : Type} (build : Except PyExc M)
    (comps : List (M → Except PyExc (WithBot ℚ))) :
    Except PyExc (WithBot ℚ × List (WithBot ℚ)) :=
  match build with
  | .error .valueError => .ok (⊥, List.replicate comps.length ⊥)
  | .error e => .error e
  | .ok m =>
    match comps.mapM (fun f => f m) with
    | .error e => .error e
    | .ok probs => .ok (probs.sum, probs)

/-- Embedding of `posterior` (fitter/likelihoods.py lines 592-617):
reconstruct θ, evaluate the hard prior bounds, short-circuit to −∞ on a
violation, otherwise delegate to `log_likelihood`. -/
def posterior {M : Type} (theta_free : List ℚ) (fixed : List (Param × ℚ))
    (build : Except PyExc M) (comps : List (M → Except PyExc (WithBot ℚ))) :
    Except PyExc (WithBot ℚ × List (WithBot ℚ)) :=
  match checkBounds (mergeTheta theta_free fixed) with
  | .error e => .error e
  | .ok true => log_likelihood build comps
  | .ok false => .ok (⊥, List.replicate comps.length ⊥)

/-
Embedding of fitter/likelihoods.py lines 23-26 (`pc2arcsec`) and lines
292-340 (`likelihood_number_density`).  The float primitives np.arctan,
np.log and np.sqrt are passed in through `NumFuns`; the model attributes
used by the function are collected in `NDModel` and the number-density
dataset in `NDData`.
-/

/-- Opaque float primitives used by `likelihood_number_density`:
`atanQ` models np.arctan, `logQ` models np.log, `sqrtQ` models np.sqrt. -/
structure NumFuns : Type where
  atanQ : ℚ → ℚ
  logQ : ℚ → ℚ
  sqrtQ : ℚ → ℚ

/-- Model attributes read by `likelihood_number_density`: the radial grid
`r`, distance `d` [kpc], mean-mass array `mj`, per-bin surface-density
profiles `Sigmaj`, number of main-sequence bins `nms` and the nuisance
variance parameter `s2`. -/
structure NDModel : Type where
  r : List ℚ
  d : ℚ
  mj : List ℚ
  Sigmaj : List (List ℚ)
  nms : ℕ
  s2 : ℚ

/-- Number-density dataset: radii `r` [arcmin], observed surface number
densities `Sig`, their uncertainties `dSig`, and the optional tracer-mass
metadata value `m`. -/
structure NDData : Type where
  r : List ℚ
  Sig : List ℚ
  dSig : List ℚ
  m : Option ℚ

/-- Unit conversion `pc2arcsec(r, d)` (fitter/likelihoods.py lines 23-26):
`d *= 1000; return 206265 * 2 * np.arctan(r / (2 * d))`. -/
def pc2arcsec (atanQ : ℚ → ℚ) (r d : ℚ) : ℚ :=
  206265 * 2 * atanQ (r / (2 * (1000 * d)))

/-- Mass-bin resolution shared by the likelihood components: metadata `m`
matched exactly against `model.mj` (`np.where(model.mj == m)[0][0]`), else
the last main-sequence bin `nms - 1`. -/
def resolve_mass_bin (mj : List ℚ) (nms : ℕ) (m : Option ℚ) : ℕ :=
  match m with
  | some mv => mj.findIdx (fun x => x = mv)
  | none => nms - 1

/-- K scaling factor of the source (fitter/likelihoods.py lines 325-326):
`np.sum(obs_Σ * interpolated / obs_Σ ** 2) / np.sum(interpolated ** 2 /
obs_Σ ** 2)` — the weights are the observed values themselves. -/
def K_scaling (obs interp : List ℚ) : ℚ :=
  ((obs.zip interp).map (fun p => p.1 * p.2 / p.1 ^ 2)).sum
    / ((obs.zip interp).map (fun p => p.2 ^ 2 / p.1 ^ 2)).sum

/-- K scaling factor as the claim states it, with the stated uncertainties
ΔΣ as the weights: `Σ(obs·model/obs_err²) / Σ(model²/obs_err²)`. -/
def K_claimed (obs errs interp : List ℚ) : ℚ :=
  (((obs.zip errs).zip interp).map (fun p => p.1.1 * p.2 / p.1.2 ^ 2)).sum
    / (((obs.zip errs).zip interp).map (fun p => p.2 ^ 2 / p.1.2 ^ 2)).sum

/-- Embedding of `likelihood_number_density` (fitter/likelihoods.py lines
292-340): resolve the mass bin, drop points with Σ ≤ 0.1, interpolate the
model surface-density profile at the remaining data radii, rescale it by
`K_scaling`, add the nuisance variance `s2` in quadrature to the errors
and return the Gaussian log-likelihood. -/
def likelihood_number_density (fn : NumFuns) (model : NDModel) (nd : NDData) : ℚ :=
  let mass_bin := resolve_mass_bin model.mj model.nms nd.m
  let mask := nd.Sig.map (fun s => decide (s > 1/10))
  let obs_Sig := applyMask nd.Sig mask
  let obs_err := applyMask nd.dSig mask
  let r_valid := applyMask nd.r mask
  let xp := model.r.map (fun r => pc2arcsec fn.atanQ r model.d / 60)
  let fp := (model.Sigmaj.getD mass_bin []).map (fun s => s / model.mj.getD mass_bin 0)
  let interpolated := r_valid.map (fun x => np_interp x xp fp)
  let K := K_scaling obs_Sig interpolated
  let interpolated := interpolated.map (fun y => K * y)
  let yerr := obs_err.map (fun e => fn.sqrtQ (e ^ 2 + model.s2))
  (-1/2 : ℚ) * (((obs_Sig.zip interpolated).zip yerr).map
    (fun p => (p.1.1 - p.1.2) ^ 2 / p.2 ^ 2 + fn.logQ (p.2 ^ 2))).sum

/-- Pipeline of `likelihood_number_density` as claim C5 states it, i.e.
with the rescaling factor `K_claimed` weighted by the uncertainties ΔΣ;
everything else as in the source. -/
def likelihood_nd_claimed (fn : NumFuns) (model : NDModel) (nd : NDData) : ℚ :=
  let mass_bin := resolve_mass_bin model.mj model.nms nd.m
  let mask := nd.Sig.map (fun s => decide (s > 1/10))
  let obs_Sig := applyMask nd.Sig mask
  let obs_err := applyMask nd.dSig mask
  let r_valid := applyMask nd.r mask
  let xp := model.r.map (fun r => pc2arcsec fn.atanQ r model.d / 60)
  let fp := (model.Sigmaj.getD mass_bin []).map (fun s => s / model.mj.getD mass_bin 0)
  let interpolated := r_valid.map (fun x => np_interp x xp fp)
  let K := K_claimed obs_Sig obs_err interpolated
  let interpolated := interpolated.map (fun y => K * y)
  let yerr := obs_err.map (fun e => fn.sqrtQ (e ^ 2 + model.s2))
  (-1/2 : ℚ) * (((obs_Sig.zip interpolated).zip yerr).map
    (fun p => (p.1.1 - p.1.2) ^ 2 / p.2 ^ 2 + fn.logQ (p.2 ^ 2))).sum

/-- Pipeline of `likelihood_number_density` as amended: the least-squares
amplitude factor is `Σ(obs·model/obs²) / Σ(model²/obs²)`, weighted by the
observed Σ values themselves (matching the source comment "Sum of observed
* model / observed**2 divided by sum of model**2 / observed**2"). -/
def likelihood_nd_amended (fn : NumFuns) (model : NDModel) (nd : NDData) : ℚ :=
  let mass_bin := resolve_mass_bin model.mj model.nms nd.m
  let mask := nd.Sig.map (fun s => decide (s > 1/10))
  let obs_Sig := applyMask nd.Sig mask
  let obs_err := applyMask nd.dSig mask
  let r_valid := applyMask nd.r mask
  let xp := model.r.map (fun r => pc2arcsec fn.atanQ r model.d / 60)
  let fp := (model.Sigmaj.getD mass_bin []).map (fun s => s / model.mj.getD mass_bin 0)
  let modelv := r_valid.map (fun x => np_interp x xp fp)
  let K := (List.zipWith (fun o mv => o * mv / o ^ 2) obs_Sig modelv).sum
    / (List.zipWith (fun o mv => mv ^ 2 / o ^ 2) obs_Sig modelv).sum
  let sig2 := obs_err.map (fun e => fn.sqrtQ (e ^ 2 + model.s2) ^ 2)
  (-1/2 : ℚ) * (List.zipWith3 (fun o mv v => (o - K * mv) ^ 2 / v + fn.logQ v)
    obs_Sig modelv sig2).sum

/-- Model with every surface-density profile multiplied by `c`. -/
def scale_Sigmaj (c : ℚ) (model : NDModel) : NDModel :=
  { model with Sigmaj := model.Sigmaj.map (fun row => row.map (fun s => c * s)) }

/-- Number-density dataset with every point of observed Σ ≤ 0.1 removed
(the complement of the source's `valid` mask applied to all columns). -/
def filter_valid (nd : NDData) : NDData :=
  let mask := nd.Sig.map (fun s => decide (s > 1/10))
  { r := applyMask nd.r mask, Sig := applyMask nd.Sig mask,
    dSig := applyMask nd.dSig mask, m := nd.m }

/-
Embedding of fitter/data.py lines 391-417: the mass-bin assembly inside
`Model.__init__`.  The evolved mass function returned by the external
`ssptools.evolve_mf` service is passed in as an `MFResult` holding its
final-time rows: stellar mean masses `ms`, counts `Ns`, total masses `Ms`,
the corresponding remnant arrays `mr`, `Nr`, `Mr`, and the numerical-empty
threshold `Nmin`.
-/

/-- Final-time output rows of the external mass-function evolution
service (`self._mf.ms[-1]`, `Ns[-1]`, `Ms[-1]`, `mr[-1]`, `Nr[-1]`,
`Mr[-1]`, `Nmin`). -/
structure MFResult : Type where
  ms : List ℚ
  Ns : List ℚ
  Ms : List ℚ
  mr : List ℚ
  Nr : List ℚ
  Mr : List ℚ
  Nmin : ℚ

/-- Dataset as seen by the tracer-bin loop: only its optional mass
metadata value `m` matters. -/
structure TracerDataset : Type where
  m : Option ℚ

/-- Mass-bin arrays recorded on the model: mean masses `mj`, total masses
`Mj`, and the main-sequence bin count `nms`. -/
structure MassBins : Type where
  mj : List ℚ
  Mj : List ℚ
  nms : ℕ

/-- Stellar retention mask `cs = self._mf.Ns[-1] > 10 * self._mf.Nmin`. -/
def stellar_mask (mf : MFResult) : List Bool :=
  mf.Ns.map (fun n => decide (n > 10 * mf.Nmin))

/-- Remnant retention mask `cr = self._mf.Nr[-1] > 10 * self._mf.Nmin`. -/
def remnant_mask (mf : MFResult) : List Bool :=
  mf.Nr.map (fun n => decide (n > 10 * mf.Nmin))

/-- Retained stellar mean masses `self._mf.ms[-1][cs]`. -/
def retained_stellar (mf : MFResult) : List ℚ :=
  applyMask mf.ms (stellar_mask mf)

/-- Retained remnant mean masses `self._mf.mr[-1][cr]`. -/
def retained_remnant (mf : MFResult) : List ℚ :=
  applyMask mf.mr (remnant_mask mf)

/-- Tracer masses, following the spec's words: one entry per dataset
exposing an `m` metadata value, in dataset iteration order. -/
def tracer_masses (dss : List TracerDataset) : List ℚ :=
  dss.filterMap (fun ds => ds.m)

/-- Embedding of the mass-bin assembly of `Model.__init__`
(fitter/data.py lines 391-417): `mj = np.r_[ms[-1][cs], mr[-1][cr]]`,
`Mj = np.r_[Ms[-1][cs], Mr[-1][cr]]`, then one tracer bin per dataset with
`m` metadata appended with total mass `0.1`, and
`nms = len(ms[-1][cs])`. -/
def model_mass_bins (mf : MFResult) (observations : Option (List TracerDataset)) : MassBins :=
  let mj := applyMask mf.ms (stellar_mask mf) ++ applyMask mf.mr (remnant_mask mf)
  let Mj := applyMask mf.Ms (stellar_mask mf) ++ applyMask mf.Mr (remnant_mask mf)
  let p :=
    match observations with
    | some dss =>
      let tracer_mj := dss.filterMap (fun ds : TracerDataset => ds.m)
      (mj ++ tracer_mj, Mj ++ tracer_mj.map (fun _ => 1/10))
    | none => (mj, Mj)
  { mj := p.1, Mj := p.2, nms := (applyMask mf.ms (stellar_mask mf)).length }

/-
Embedding of fitter/data.py lines 115-178: `Dataset` variable lookup and
`Dataset.build_err`.
-/

/-- Dataset as a dictionary of named variables (`_dict_variables`). -/
structure ObsDataset : Type where
  vars : List (String × List ℚ)

/-- Variable access `self[key]`, raising `KeyError` when absent
(fitter/data.py lines 126-127). -/
def dget (ds : ObsDataset) (key : String) : Except PyExc (List ℚ) :=
  match lookupS ds.vars key with
  | some v => Except.ok v
  | none => Except.error .keyError

/-- Pointwise asymmetric-error selection of `build_err`: where the
interpolated model value strictly exceeds the observed value take the `up`
error, otherwise the `down` error (`gt_mask = model_val > quantity`). -/
def build_err_select (quantity model_val err_up err_down : List ℚ) : List ℚ :=
  ((quantity.zip model_val).zip (err_up.zip err_down)).map
    (fun p => if p.1.1 < p.1.2 then p.2.1 else p.2.2)

/-- Embedding of `Dataset.build_err` (fitter/data.py lines 147-178): try
the symmetric error `Δ<var>`; on KeyError try the pair `Δ<var>,up` /
`Δ<var>,down`; if either is missing raise ValueError; otherwise
interpolate the model at the data radii and select per-point. -/
def build_err (ds : ObsDataset) (varname : String) (model_r model_val : List ℚ) :
    Except PyExc (List ℚ) :=
  match lookupS ds.vars ("Δ" ++ varname) with
  | some e => Except.ok e
  | none =>
    match lookupS ds.vars ("Δ" ++ varname ++ ",up"),
        lookupS ds.vars ("Δ" ++ varname ++ ",down") with
    | some err_up, some err_down => do
      let quantity ← dget ds varname
      let rs ← dget ds "r"
      let mv := rs.map (fun x => np_interp x model_r model_val)
      return build_err_select quantity mv err_up err_down
    | _, _ => Except.error .valueError

/-
Embedding of fitter/probabilities/pulsars.py lines 26-239:
`cluster_component`.  The scipy spline machinery (`QuantitySpline`),
np.geomspace, the exact float square root and the astropy unit-conversion
factor of `az.to('m/s^2')` are numeric-library services; they are passed
in through `NumPrims` so the control flow and all arithmetic of the
source function itself are embedded exactly.  Debug `print` /
`matplotlib` statements of the source have no effect on the returned
value and are omitted.
-/

/-- Opaque interpolating spline: point evaluation, evaluation of its
derivative, the roots of the derivative, and the definite integral. -/
structure SplineQ : Type where
  eval : ℚ → ℚ
  derivEval : ℚ → ℚ
  derivRoots : List ℚ
  integral : ℚ → ℚ → ℚ

/-- Opaque numeric-library primitives used by `cluster_component`:
np.sqrt, np.geomspace, the spline constructor `QuantitySpline(x, y, k)`
(s=0, ext=1 are fixed in the source), and the scalar factor applied by the
astropy unit conversion `az.to('m/s^2')`. -/
structure NumPrims : Type where
  sqrtQ : ℚ → ℚ
  geomspaceQ : ℚ → ℚ → ℕ → List ℚ
  mkSpline : List ℚ → List ℚ → ℕ → SplineQ
  convMS2 : ℚ

/-- Model attributes read by `cluster_component`: truncation radius `rt`,
grid size `nstep`, radial grid `r`, enclosed-mass profile `mc`,
gravitational constant `G`, total density profile `rho`, per-mass-bin
density profiles `rhoj` and the number of mass bins `nmbin`. -/
structure PulsarModel : Type where
  rt : ℚ
  nstep : ℕ
  r : List ℚ
  mc : List ℚ
  G : ℚ
  rho : List ℚ
  rhoj : List (List ℚ)
  nmbin : ℕ

/-- Speed of light in m/s (exact SI value of `astropy.constants.c`). -/
def c_si : ℚ := 299792458

/-- Cumulative two-sided trapezoid normalization loop of
`cluster_component` (pulsars.py lines 164-193): `for ind in range(mid)`,
accumulating one trapezoid on each side of the midpoint per iteration;
break with the current `ind` once `|2.0 - norm| ≤ eps`, back up one step
when `norm` overshoots 2.0, and fall through with `ind = mid - 1`
otherwise (the source then only logs a warning).  The first argument is
the remaining iteration count `mid - ind`, so the recursion is
structural. -/
def norm_loop_go (P : List ℚ) (da eps : ℚ) (mid : ℕ) :
    ℕ → ℕ → ℚ → ℤ × ℚ
  | 0, _, norm => ((mid : ℤ) - 1, norm)
  | fuel + 1, ind, norm =>
    let Pa := P.getD (mid + ind) 0
    let Pb := P.getD (mid + ind + 1) 0
    let Pc := P.getD (mid - ind) 0
    let Pd := P.getD (mid - ind - 1) 0
    let norm2 := norm + (1/2 * da * (Pa + Pb)) + (1/2 * da * (Pc + Pd))
    if |2 - norm2| ≤ eps then ((ind : ℤ), norm2)
    else if 2 < norm2 then ((ind : ℤ) - 1, norm2)
    else norm_loop_go P da eps mid fuel (ind + 1) norm2

/-- Final index and accumulated area of the normalization loop. -/
def norm_loop (P : List ℚ) (da eps : ℚ) (mid : ℕ) : ℤ × ℚ :=
  norm_loop_go P da eps mid mid 0 0

/-- Embedding of `cluster_component(model, R, mass_bin, eps)`
(pulsars.py lines 26-239).  Raises ValueError (`OutOfBoundsRadius`) when
`R >= model.rt`; otherwise builds the line-of-sight acceleration
distribution: z grid, enclosed-mass spline, `az = G·M(r)·z/r³`, inverse
branch splines around the acceleration maximum, the change-of-variables
density `ρ(z(a))/|da/dz|`, mirroring about zero, the cumulative
normalization loop, zeroing outside the converged cut, and the final
conversion of the domain to Pdot/P by dividing by c.  (In the
single-branch case the source would hit a NameError if any domain point
exceeded `azt`; the source comment asserts that branch is only taken when
none does, and the embedding keeps the distribution unchanged there.) -/
def cluster_component (pr : NumPrims) (model : PulsarModel) (R : ℚ)
    (mass_bin : ℕ) (eps : ℚ) : Except PyExc (List ℚ × List ℚ) :=
  if model.rt ≤ R then Except.error .valueError
  else
    let nz := model.nstep
    let zt := pr.sqrtQ (model.rt ^ 2 - R ^ 2)
    let z := setLast (pr.geomspaceQ (model.r.getD 1 0) zt nz) zt
    let r := z.map (fun zi => pr.sqrtQ (R ^ 2 + zi ^ 2))
    let Mr := r.map (pr.mkSpline model.r model.mc 3).eval
    let az := List.zipWith (fun Mri p => model.G * Mri * p.1 / p.2 ^ 3) Mr (z.zip r)
    let az := az.map (fun a => a * pr.convMS2)
    let az_spl := pr.mkSpline z az 4
    let azt := az.getLastD 0
    let rho := if mass_bin = 0 ∧ model.nmbin = 1 then model.rho
      else model.rhoj.getD mass_bin []
    let rho_spl := pr.mkSpline model.r rho 3
    let rhoz_spl := pr.mkSpline z (r.map rho_spl.eval) 3
    let nr := nz
    let k := 3
    let branch :=
      match az_spl.derivRoots with
      | zm :: _ =>
        let z2 := (np_linspace zm (z.getLastD 0) nr).reverse
        (zm, some (pr.mkSpline (z2.map az_spl.eval) z2 k))
      | [] => (z.getLastD 0, none)
    let zmax := branch.1
    let z1grid := np_linspace (z.getD 0 0) zmax nr
    let z1_spl := pr.mkSpline (z1grid.map az_spl.eval) z1grid k
    let azmax := az_spl.eval zmax
    let az_domain := np_linspace 0 azmax (6 * nr)
    let da := (np_diff az_domain).getD 1 0
    let z1 := az_domain.map (fun a => max (z1_spl.eval a) (z.getD 0 0))
    let Paz := z1.map (fun zi => rhoz_spl.eval zi / |az_spl.derivEval zi|)
    let Paz :=
      if az_domain.any (fun a => azt < a) then
        match branch.2 with
        | some z2_spl =>
          List.zipWith
            (fun a p =>
              if azt < a ∧ z2_spl.eval a < zt then
                p + rhoz_spl.eval (z2_spl.eval a) / |az_spl.derivEval (z2_spl.eval a)|
              else p)
            az_domain Paz
        | none => Paz
      else Paz
    let Paz := Paz.map (fun p => p / rhoz_spl.integral 0 zt)
    let Paz_dist := (Paz.drop 1).reverse ++ Paz
    let az_dom_full := ((az_domain.drop 1).map (fun a => -a)).reverse ++ az_domain
    let mid := Paz_dist.length / 2
    let cut := norm_loop Paz_dist da eps mid
    let Paz_dist := zeroOutside ((mid : ℤ) - cut.1) ((mid : ℤ) + cut.1 + 1) Paz_dist
    let PdotP_domain := az_dom_full.map (fun a => a / c_si)
    Except.ok (PdotP_domain, Paz_dist)

/-- Success test on an `Except` value. -/
def isOkE {ε α : Type} : Except ε α → Bool
  | .ok _ => true
  | .error _ => false

/-
Concrete instances used by the witnesses and counterexamples below.
-/

/-- Concrete numeric primitives realizing a uniform-density scenario:
sqrt values at the two radicands that occur, `np.geomspace(a, b, 1) = [a]`,
constant splines (the k=4 acceleration spline has no interior derivative
root, so the single-branch case is taken), and a trivial unit-conversion
factor. -/
def prims1 : NumPrims where
  sqrtQ := fun q => if q = 16 then 4 else if q = 25 then 5 else 0
  geomspaceQ := fun a _ _ => [a]
  mkSpline := fun xs _ k =>
    if k = 4 then
      { eval := fun _ => 1, derivEval := fun _ => 1, derivRoots := [],
        integral := fun _ _ => 1 }
    else if xs = [1] then
      { eval := fun _ => 4, derivEval := fun _ => 1, derivRoots := [],
        integral := fun _ _ => 1 }
    else
      { eval := fun _ => 1, derivEval := fun _ => 1, derivRoots := [],
        integral := fun _ _ => 1 }
  convMS2 := 1

/-- Concrete pulsar model: truncation radius 5, a single z step, and
values arranged so that the line-of-sight acceleration at the boundary is
exactly 1. -/
def pmodel1 : PulsarModel :=
  { rt := 5, nstep := 1, r := [1, 2], mc := [1, 1], G := 125/4,
    rho := [1, 1], rhoj := [[1, 1]], nmbin := 1 }

/-- Concrete float primitives for the number-density examples: arctan and
sqrt as the identity, log as the zero function. -/
def ndfn1 : NumFuns := { atanQ := fun q => q, logQ := fun _ => 0, sqrtQ := fun q => q }

/-- Concrete number-density model whose interpolation knots coincide with
the data radii (the distance is chosen so `pc2arcsec(r, d)/60 = r` under
the identity arctan). -/
def ndmodel1 : NDModel :=
  { r := [1, 3], d := 206265/60000, mj := [1], Sigmaj := [[2, 6]], nms := 1, s2 := 0 }

/-- Concrete number-density dataset with two valid points. -/
def nddata1 : NDData := { r := [1, 3], Sig := [2, 4], dSig := [1, 3], m := none }

/-- Concrete fixed-initials dictionary with W0 = 25, violating the hard
prior bound 3 < W0 < 20 (all other parameters at their defaults). -/
def fixed_bad : List (Param × ℚ) := (.W0, 25) :: DEFAULT_INITIALS

/-- Concrete evolved-mass-function result: one retained stellar bin
(mean mass 0.3) and one retained remnant bin (mean mass 1.4). -/
def mf1 : MFResult :=
  { ms := [3/10], Ns := [100], Ms := [50], mr := [7/5], Nr := [100], Mr := [30], Nmin := 1 }

/-- Concrete observation list with a single tracer dataset of mass 2. -/
def obs1 : List TracerDataset := [{ m := some 2 }]

/-- Concrete dataset carrying only the asymmetric error pair for σ. -/
def ds1 : ObsDataset :=
  { vars := [("σ", [1, 2]), ("r", [1, 2]), ("Δσ,up", [10, 20]), ("Δσ,down", [30, 40])] }

/-- Concrete dataset carrying no error information for σ at all. -/
def ds2 : ObsDataset := { vars := [("σ", [1, 2]), ("r", [1, 2])] }

/-
Helper lemmas.
-/

/-- Linearity of `np_interp` in the value list. -/
theorem np_interp_map_mul (c x : ℚ) : ∀ (xp fp : List ℚ),
    np_interp x xp (fp.map (fun y => c * y)) = c * np_interp x xp fp
  | [], [] => by simp [np_interp]
  | [], _ :: _ => by simp [np_interp]
  | [_], [] => by simp [np_interp]
  | [_], [_] => by simp [np_interp]
  | [_], _ :: _ :: _ => by simp [np_interp]
  | _ :: _ :: _, [] => by simp [np_interp]
  | _ :: _ :: _, [_] => by simp [np_interp]
  | x0 :: x1 :: xs, y0 :: y1 :: ys => by
    by_cases h1 : x ≤ x0
    · simp [np_interp, h1]
    · by_cases h2 : x ≤ x1
      · simp only [List.map_cons, np_interp, if_neg h1, if_pos h2]
        ring
      · simp only [List.map_cons, np_interp, if_neg h1, if_neg h2]
        simpa using np_interp_map_mul c x (x1 :: xs) (y1 :: ys)

/-- Behaviour of the K scaling factor under a uniform rescaling of the
model values: multiplying the model list by a nonzero `c` divides K by
`c` exactly. -/
theorem K_scaling_map_mul (c : ℚ) (hc : c ≠ 0) (obs interp : List ℚ) :
    K_scaling obs (interp.map (fun y => c * y)) * c = K_scaling obs interp := by
  unfold K_scaling
  rw [List.zip_map_right]
  have h1 : ((obs.zip interp).map (Prod.map id fun y => c * y)).map
        (fun p : ℚ × ℚ => p.1 * p.2 / p.1 ^ 2)
      = (obs.zip interp).map (fun p : ℚ × ℚ => c * (p.1 * p.2 / p.1 ^ 2)) := by
    rw [List.map_map]
    congr 1
    funext p
    simp only [Function.comp, Prod.map, id]
    ring
  have h2 : ((obs.zip interp).map (Prod.map id fun y => c * y)).map
        (fun p : ℚ × ℚ => p.2 ^ 2 / p.1 ^ 2)
      = (obs.zip interp).map (fun p : ℚ × ℚ => c ^ 2 * (p.2 ^ 2 / p.1 ^ 2)) := by
    rw [List.map_map]
    congr 1
    funext p
    simp only [Function.comp, Prod.map, id]
    ring
  rw [h1, h2, List.sum_map_mul_left, List.sum_map_mul_left]
  rcases eq_or_ne ((obs.zip interp).map (fun p : ℚ × ℚ => p.2 ^ 2 / p.1 ^ 2)).sum 0 with hD | hD
  · rw [hD]
    simp
  · field_simp
    ring

/-- Elements selected by the mask `l.map p` satisfy `p`. -/
theorem mem_applyMask_map {α : Type} (p : α → Bool) : ∀ (l : List α) (x : α),
    x ∈ applyMask l (l.map p) → p x = true
  | [], x => by simp [applyMask]
  | a :: as, x => by
    simp only [List.map_cons, applyMask]
    by_cases h : p a
    · simp only [h, if_true, List.mem_cons]
      rintro (rfl | hx)
      · exact h
      · exact mem_applyMask_map p as x hx
    · simp only [h, if_false]
      exact mem_applyMask_map p as x
  termination_by l => l.length

/-- Mapping a predicate over a list of elements that all satisfy it gives
a list of `true`s. -/
theorem map_eq_replicate_of_all {α : Type} (p : α → Bool) : ∀ (l : List α),
    (∀ x ∈ l, p x = true) → l.map p = List.replicate l.length true
  | [], _ => rfl
  | a :: as, h => by
    have h1 : p a = true := h a (List.mem_cons_self a as)
    have h2 := map_eq_replicate_of_all p as (fun x hx => h x (List.mem_cons_of_mem a hx))
    simp [List.replicate_succ, h1, h2]

/-- Masking with an all-true mask at least as long as the list is the
identity. -/
theorem applyMask_replicate_true {α : Type} : ∀ (l : List α) (n : ℕ),
    l.length ≤ n → applyMask l (List.replicate n true) = l
  | [], n, _ => by cases n <;> simp [applyMask]
  | a :: as, n + 1, h => by
    simp only [List.replicate, applyMask, if_true]
    rw [applyMask_replicate_true as n (by simpa using h)]
  | _ :: _, 0, h => by simp at h

/-- Masking selects at most as many elements as the mask has `true`s. -/
theorem length_applyMask_le_count {α : Type} : ∀ (l : List α) (m : List Bool),
    (applyMask l m).length ≤ m.count true
  | [], m => by simp [applyMask]
  | _ :: _, [] => by simp [applyMask]
  | a :: as, b :: bs => by
    cases b <;> simp [applyMask, List.count_cons] <;>
      exact length_applyMask_le_count as bs

/-- When the mask is no longer than the list, masking selects exactly as
many elements as the mask has `true`s. -/
theorem length_applyMask_eq_count {α : Type} : ∀ (l : List α) (m : List Bool),
    m.length ≤ l.length → (applyMask l m).length = m.count true
  | l, [], _ => by cases l <;> simp [applyMask]
  | [], _ :: _, h => by simp at h
  | a :: as, b :: bs, h => by
    cases b <;> simp [applyMask, List.count_cons] <;>
      rw [length_applyMask_eq_count as bs (by simp only [List.length_cons] at h; omega)]

/-- Row lookup with default `[]` commutes with mapping a row-wise scaling
over the list of rows. -/
theorem getD_map_map (c : ℚ) : ∀ (l : List (List ℚ)) (i : ℕ),
    (l.map (fun row => row.map (fun s => c * s))).getD i []
      = (l.getD i []).map (fun s => c * s)
  | [], i => by simp
  | row :: rows, 0 => by simp
  | row :: rows, i + 1 => by simpa using getD_map_map c rows i

/-- Numerator of the K factor: map over a zip as a zipWith. -/
theorem zip_map_num : ∀ (a b : List ℚ),
    (a.zip b).map (fun p => p.1 * p.2 / p.1 ^ 2)
      = List.zipWith (fun o mv => o * mv / o ^ 2) a b
  | [], _ => by simp
  | _ :: _, [] => by simp
  | o :: os, m :: ms => by simpa using zip_map_num os ms

/-- Denominator of the K factor: map over a zip as a zipWith. -/
theorem zip_map_den : ∀ (a b : List ℚ),
    (a.zip b).map (fun p => p.2 ^ 2 / p.1 ^ 2)
      = List.zipWith (fun o mv => mv ^ 2 / o ^ 2) a b
  | [], _ => by simp
  | _ :: _, [] => by simp
  | o :: os, m :: ms => by simpa using zip_map_den os ms

/-- Equality of the two formulations of the Gaussian sum: a map over a
zip of a zip with the rescaled model and the per-point errors, versus a
three-way zipWith with the squared errors precomputed. -/
theorem nd_sum_forms_eq (fnlog sq : ℚ → ℚ) (K s2 : ℚ) : ∀ (obs mv errs : List ℚ),
    (((obs.zip (mv.map (fun y => K * y))).zip (errs.map (fun e => sq (e ^ 2 + s2)))).map
        (fun p => (p.1.1 - p.1.2) ^ 2 / p.2 ^ 2 + fnlog (p.2 ^ 2))).sum
      = (List.zipWith3 (fun o m v => (o - K * m) ^ 2 / v + fnlog v)
          obs mv (errs.map (fun e => sq (e ^ 2 + s2) ^ 2))).sum
  | [], _, _ => by simp [List.zipWith3]
  | _ :: _, [], _ => by simp [List.zipWith3]
  | _ :: _, _ :: _, [] => by simp [List.zipWith3]
  | o :: os, m :: ms, e :: es => by
    simp only [List.map_cons, List.zip_cons_cons, List.zipWith3, List.sum_cons]
    rw [nd_sum_forms_eq fnlog sq K s2 os ms es]

/-- Tail of the number-density likelihood is invariant under replacing
the model list by its rescaling by a nonzero `c`, because the K factor
absorbs the rescaling exactly. -/
theorem nd_tail_eq (obs yerr mv : List ℚ) (c : ℚ) (hc : c ≠ 0) (fnlog : ℚ → ℚ) :
    (((obs.zip ((mv.map (fun y => c * y)).map
          (fun y => K_scaling obs (mv.map (fun y => c * y)) * y))).zip yerr).map
        (fun p => (p.1.1 - p.1.2) ^ 2 / p.2 ^ 2 + fnlog (p.2 ^ 2))).sum
      = (((obs.zip (mv.map (fun y => K_scaling obs mv * y))).zip yerr).map
          (fun p => (p.1.1 - p.1.2) ^ 2 / p.2 ^ 2 + fnlog (p.2 ^ 2))).sum := by
  have hK := K_scaling_map_mul c hc obs mv
  have h : (mv.map (fun y => c * y)).map (fun y => K_scaling obs (mv.map (fun y => c * y)) * y)
      = mv.map (fun y => K_scaling obs mv * y) := by
    rw [List.map_map]
    congr 1
    funext y
    simp only [Function.comp]
    rw [← hK]
    ring
  rw [h]


/-
Claim theorems.
-/

/-- Claim C1 (code bug): the density returned by `cluster_component` does
NOT integrate to 1 over the returned symmetric domain within eps = 1e-3.
At the concrete converged scenario `prims1` / `pmodel1` with R = 3 (well
inside rt = 5), the trapezoidal integral of the returned density over the
returned Pdot/P domain is 9/1498962290 — and over the acceleration domain
(the returned domain times c) it is 9/5, i.e. ≈ 2: the cumulative loop
targets a two-sided area of 2.0 and the final division by 2 is commented
out in the source (`# Paz_dist /= 2`, "TODO turn this back on"), so the
claimed normalization to 1 ± eps fails. -/
theorem C1_cluster_density_integrates_to_two :
    (cluster_component prims1 pmodel1 3 0 (1/1000)).map
        (fun p => (np_trapz p.2 p.1, np_trapz p.2 (p.1.map (fun a => a * c_si))))
      = Except.ok (9/1498962290, 9/5)
    ∧ ¬ |(9 : ℚ)/1498962290 - 1| ≤ 1/1000
    ∧ ¬ |(9 : ℚ)/5 - 1| ≤ 1/1000 := by
  refine ⟨?_, by rw [abs_sub_comm]; norm_num [abs_of_pos], by rw [abs_sub_comm]; norm_num [abs_of_neg]⟩
  norm_num [cluster_component, prims1, pmodel1, setLast, np_linspace, np_diff,
    np_trapz, norm_loop, norm_loop_go, zeroOutside, c_si, List.range_succ,
    abs_of_pos, abs_of_nonneg, abs_of_neg, List.getLastD, List.enum, Except.map]

/-- Claim C9 (confirmed): `cluster_component` fails with
`OutOfBoundsRadius` (a ValueError) exactly when the projected radius
reaches or passes the truncation radius, and returns a domain / density
pair for every R < rt. -/
theorem C9_cluster_raises_iff_outside (pr : NumPrims) (model : PulsarModel)
    (R : ℚ) (mass_bin : ℕ) (eps : ℚ) :
    isOkE (cluster_component pr model R mass_bin eps) = true ↔ R < model.rt := by
  by_cases h : model.rt ≤ R
  · rw [cluster_component, if_pos h]
    exact iff_of_false (by simp [isOkE]) (not_lt.mpr h)
  · rw [cluster_component, if_neg h]
    exact iff_of_true rfl (lt_of_not_le h)

/-- Claim C3 (confirmed): a θ that violates a hard prior bound makes
`posterior` return total = −∞ together with a per-component −∞ for every
registered component, and the result does not depend on the model-builder
outcome at all (no solver call can influence it). -/
theorem C3_prior_violation_short_circuits {M : Type} (theta_free : List ℚ)
    (fixed : List (Param × ℚ)) (build build2 : Except PyExc M)
    (comps : List (M → Except PyExc (WithBot ℚ)))
    (h : checkBounds (mergeTheta theta_free fixed) = Except.ok false) :
    posterior theta_free fixed build comps
      = Except.ok (⊥, List.replicate comps.length ⊥)
    ∧ posterior theta_free fixed build comps = posterior theta_free fixed build2 comps := by
  constructor <;> simp [posterior, h]

/-- Witness for C3 at a concrete input: all parameters fixed at their
defaults except W0 = 25, which violates 3 < W0 < 20. -/
theorem C3_witness :
    checkBounds (mergeTheta [] fixed_bad) = Except.ok false
    ∧ posterior [] fixed_bad (Except.ok () : Except PyExc Unit)
        [fun _ => Except.ok (0 : WithBot ℚ)]
      = Except.ok (⊥, List.replicate 1 ⊥) := by
  have h : checkBounds (mergeTheta [] fixed_bad) = Except.ok false := by
    simp only [checkBounds, mergeTheta, getP, lookupP, variable_params,
      DEFAULT_INITIALS, fixed_bad, lookupZip, Bind.bind, Except.bind, Pure.pure,
      Except.pure, Except.instMonad, List.map, List.filter, List.zip,
      List.zipWith, Option.isNone]
    simp
    norm_num
  exact ⟨h, (C3_prior_violation_short_circuits [] fixed_bad (Except.ok ())
    (Except.ok ()) [fun _ => Except.ok (0 : WithBot ℚ)] h).1⟩

/-- Claim C4 (confirmed): for an in-bounds θ whose model construction
fails with the non-convergence condition (a ValueError), `posterior`
returns total = −∞ with a per-component −∞ vector of length equal to the
number of registered components, and the failure does not propagate. -/
theorem C4_nonconvergent_gives_neg_inf {M : Type} (theta_free : List ℚ)
    (fixed : List (Param × ℚ)) (comps : List (M → Except PyExc (WithBot ℚ)))
    (h : checkBounds (mergeTheta theta_free fixed) = Except.ok true) :
    posterior theta_free fixed (Except.error PyExc.valueError : Except PyExc M) comps
      = Except.ok (⊥, List.replicate comps.length ⊥)
    ∧ (List.replicate comps.length (⊥ : WithBot ℚ)).length = comps.length := by
  refine ⟨?_, List.length_replicate _ _⟩
  simp [posterior, h, log_likelihood]

/-- Witness for C4 at a concrete input: default θ (in bounds), a failing
model build, one registered component. -/
theorem C4_witness :
    checkBounds (mergeTheta [] DEFAULT_INITIALS) = Except.ok true
    ∧ posterior [] DEFAULT_INITIALS (Except.error PyExc.valueError : Except PyExc Unit)
        [fun _ => Except.ok (0 : WithBot ℚ)]
      = Except.ok (⊥, List.replicate 1 ⊥) := by
  have h : checkBounds (mergeTheta [] DEFAULT_INITIALS) = Except.ok true := by
    simp only [checkBounds, mergeTheta, getP, lookupP, variable_params,
      DEFAULT_INITIALS, lookupZip, Bind.bind, Except.bind, Pure.pure,
      Except.pure, Except.instMonad, List.map, List.filter, List.zip,
      List.zipWith, Option.isNone]
    simp
    norm_num
  exact ⟨h, (C4_nonconvergent_gives_neg_inf [] DEFAULT_INITIALS
    [fun _ => Except.ok (0 : WithBot ℚ)] h).1⟩

/-- Counterexample to claim C2: with an in-bounds θ (all defaults), a
successfully built model, and a single registered pulsar-style component
whose radius 6 lies beyond the truncation radius rt = 5, the ValueError
raised inside the component (`OutOfBoundsRadius` in `cluster_component`)
propagates out of `posterior` — the try/except in `log_likelihood` wraps
only the `Model(...)` call, not the component evaluations. -/
theorem C2_counterexample_component_exception_escapes :
    posterior [] DEFAULT_INITIALS (Except.ok pmodel1)
      [fun m => (cluster_component prims1 m 6 0 (1/1000)).map (fun _ => (0 : WithBot ℚ))]
      = Except.error PyExc.valueError := by
  have hcb : checkBounds (mergeTheta [] DEFAULT_INITIALS) = Except.ok true := by
    simp only [checkBounds, mergeTheta, getP, lookupP, variable_params,
      DEFAULT_INITIALS, lookupZip, Bind.bind, Except.bind, Pure.pure,
      Except.pure, Except.instMonad, List.map, List.filter, List.zip,
      List.zipWith, Option.isNone]
    simp
    norm_num
  simp only [posterior, hcb, log_likelihood, List.mapM_cons, List.mapM_nil]
  norm_num [cluster_component, pmodel1, Except.map, Bind.bind, Except.bind,
    Pure.pure, Except.pure, Except.instMonad]

/-- Claim C2 (amended): the only exceptions that can escape `posterior`
are a KeyError raised while reading θ during the prior-bound check, a
non-ValueError raised by the model construction (the KeyError of missing
required parameters), or any exception raised by a component likelihood
evaluation (this includes the OutOfBoundsRadius ValueError of a pulsar
term, which — contrary to the original claim — does propagate, since only
ValueError during model construction is caught). -/
theorem C2_amended_error_characterization {M : Type} (theta_free : List ℚ)
    (fixed : List (Param × ℚ)) (build : Except PyExc M)
    (comps : List (M → Except PyExc (WithBot ℚ))) (e : PyExc)
    (h : posterior theta_free fixed build comps = Except.error e) :
    checkBounds (mergeTheta theta_free fixed) = Except.error e
    ∨ (build = Except.error e ∧ e ≠ PyExc.valueError)
    ∨ (∃ m, build = Except.ok m ∧ comps.mapM (fun f => f m) = Except.error e) := by
  unfold posterior at h
  cases hcb : checkBounds (mergeTheta theta_free fixed) with
  | error e2 =>
    rw [hcb] at h
    simp only [Except.error.injEq] at h
    exact Or.inl (congrArg Except.error h)
  | ok b =>
    rw [hcb] at h
    cases b with
    | false => simp at h
    | true =>
      simp only [log_likelihood] at h
      cases hb : build with
      | error e2 =>
        rw [hb] at h
        cases e2 with
        | valueError => simp at h
        | keyError =>
          simp only [Except.error.injEq] at h
          refine Or.inr (Or.inl ⟨congrArg Except.error h, ?_⟩)
          rw [← h]
          intro hc
          cases hc
      | ok m =>
        rw [hb] at h
        simp only [] at h
        cases hm : comps.mapM (fun f => f m) with
        | error e2 =>
          rw [hm] at h
          simp only [Except.error.injEq] at h
          exact Or.inr (Or.inr ⟨m, rfl, by rw [hm, h]⟩)
        | ok probs =>
          rw [hm] at h
          simp at h

/-- Witness for the amended C2 at a concrete input: the component
exception (radius 7 beyond rt = 5) escapes, and the characterization
attributes it to the component evaluation. -/
theorem C2_amended_witness :
    posterior [] DEFAULT_INITIALS (Except.ok pmodel1)
        [fun m => (cluster_component prims1 m 7 0 (1/1000)).map (fun _ => (0 : WithBot ℚ))]
      = Except.error PyExc.valueError
    ∧ (checkBounds (mergeTheta [] DEFAULT_INITIALS) = Except.error PyExc.valueError
      ∨ (Except.ok pmodel1 = Except.error PyExc.valueError
          ∧ PyExc.valueError ≠ PyExc.valueError)
      ∨ (∃ m, (Except.ok pmodel1 : Except PyExc PulsarModel) = Except.ok m
          ∧ List.mapM (fun f => f m)
              [fun m2 => (cluster_component prims1 m2 7 0 (1/1000)).map (fun _ => (0 : WithBot ℚ))]
            = Except.error PyExc.valueError)) := by
  have hpost : posterior [] DEFAULT_INITIALS (Except.ok pmodel1)
      [fun m => (cluster_component prims1 m 7 0 (1/1000)).map (fun _ => (0 : WithBot ℚ))]
      = Except.error PyExc.valueError := by
    have hcb : checkBounds (mergeTheta [] DEFAULT_INITIALS) = Except.ok true := by
      simp only [checkBounds, mergeTheta, getP, lookupP, variable_params,
        DEFAULT_INITIALS, lookupZip, Bind.bind, Except.bind, Pure.pure,
        Except.pure, Except.instMonad, List.map, List.filter, List.zip,
        List.zipWith, Option.isNone]
      simp
      norm_num
    simp only [posterior, hcb, log_likelihood, List.mapM_cons, List.mapM_nil]
    norm_num [cluster_component, pmodel1, Except.map, Bind.bind, Except.bind,
      Pure.pure, Except.pure, Except.instMonad]
  exact ⟨hpost, C2_amended_error_characterization [] DEFAULT_INITIALS
    (Except.ok pmodel1)
    [fun m => (cluster_component prims1 m 7 0 (1/1000)).map (fun _ => (0 : WithBot ℚ))]
    PyExc.valueError hpost⟩

/-- Counterexample to claim C5: the K factor of the source weights by the
observed Σ values themselves, not by the stated uncertainties ΔΣ.  At a
concrete dataset (Σ = [2,4], ΔΣ = [1,3], model values [2,6]) the source
value −1490/13689 differs from the value −5/81 produced by the claimed
ΔΣ-weighted K formula. -/
theorem C5_counterexample_K_weighted_by_observed :
    likelihood_number_density ndfn1 ndmodel1 nddata1 = -1490/13689
    ∧ likelihood_nd_claimed ndfn1 ndmodel1 nddata1 = -5/81
    ∧ likelihood_number_density ndfn1 ndmodel1 nddata1
        ≠ likelihood_nd_claimed ndfn1 ndmodel1 nddata1 := by
  have h1 : likelihood_number_density ndfn1 ndmodel1 nddata1 = -1490/13689 := by
    norm_num [likelihood_number_density, ndfn1, ndmodel1, nddata1,
      resolve_mass_bin, applyMask, pc2arcsec, np_interp, K_scaling]
  have h2 : likelihood_nd_claimed ndfn1 ndmodel1 nddata1 = -5/81 := by
    norm_num [likelihood_nd_claimed, ndfn1, ndmodel1, nddata1,
      resolve_mass_bin, applyMask, pc2arcsec, np_interp, K_claimed]
  exact ⟨h1, h2, by rw [h1, h2]; norm_num⟩

/-- Claim C5 (amended): `likelihood_number_density` rescales the
interpolated model curve by the least-squares amplitude factor
K = Σ(obs·model/obs²) / Σ(model²/obs²) — weighted by the observed Σ
values, not by ΔΣ — before computing the Gaussian log-likelihood with the
nuisance variance s2 added in quadrature to the errors. -/
theorem C5_amended_likelihood_nd_refines (fn : NumFuns) (model : NDModel) (nd : NDData) :
    likelihood_number_density fn model nd = likelihood_nd_amended fn model nd := by
  simp only [likelihood_number_density, likelihood_nd_amended, K_scaling,
    zip_map_num, zip_map_den]
  congr 1
  exact nd_sum_forms_eq fn.logQ fn.sqrtQ _ model.s2 _ _ _

/-- Claim C6 (confirmed): multiplying the model's surface-density
profiles uniformly by c > 0 leaves `likelihood_number_density` unchanged
— exactly, in the rational-number model — because the K factor absorbs
the rescaling. -/
theorem C6_likelihood_nd_scaling_invariant (fn : NumFuns) (model : NDModel)
    (nd : NDData) (c : ℚ) (hc : 0 < c) :
    likelihood_number_density fn (scale_Sigmaj c model) nd
      = likelihood_number_density fn model nd := by
  have hc0 : c ≠ 0 := ne_of_gt hc
  simp only [likelihood_number_density, scale_Sigmaj]
  rw [getD_map_map]
  set mb := resolve_mass_bin model.mj model.nms nd.m with hmb
  set mask := List.map (fun s : ℚ => decide (s > 1/10)) nd.Sig with hmask
  set obs := applyMask nd.Sig mask with hobs
  set rv := applyMask nd.r mask with hrv
  set errs := applyMask nd.dSig mask with herrs
  set xp := List.map (fun r => pc2arcsec fn.atanQ r model.d / 60) model.r with hxp
  set row := model.Sigmaj.getD mb [] with hrow
  set D := model.mj.getD mb 0 with hDdef
  have h_fp : List.map (fun s => s / D) (List.map (fun s => c * s) row)
      = List.map (fun y => c * y) (List.map (fun s => s / D) row) := by
    rw [List.map_map, List.map_map]
    congr 1
    funext s
    simp only [Function.comp]
    ring
  rw [h_fp]
  simp only [np_interp_map_mul]
  have h_i : List.map (fun x => c * np_interp x xp (List.map (fun s => s / D) row)) rv
      = List.map (fun y => c * y)
          (List.map (fun x => np_interp x xp (List.map (fun s => s / D) row)) rv) := by
    rw [List.map_map]
    rfl
  rw [h_i]
  exact congrArg (fun s : ℚ => (-1/2 : ℚ) * s)
    (nd_tail_eq obs (List.map (fun e => fn.sqrtQ (e ^ 2 + model.s2)) errs)
      (List.map (fun x => np_interp x xp (List.map (fun s => s / D) row)) rv) c hc0 fn.logQ)

/-- Witness for C6 at a concrete input with c = 2. -/
theorem C6_witness :
    (0 : ℚ) < 2
    ∧ likelihood_number_density ndfn1 (scale_Sigmaj 2 ndmodel1) nddata1
        = likelihood_number_density ndfn1 ndmodel1 nddata1 :=
  ⟨by norm_num, C6_likelihood_nd_scaling_invariant ndfn1 ndmodel1 nddata1 2 (by norm_num)⟩

/-- Claim C10 (confirmed): data points with observed Σ ≤ 0.1 never
influence `likelihood_number_density` — removing them from the dataset
(jointly from r, Σ and ΔΣ) leaves the returned value unchanged, since the
source applies the `Σ > 0.1` mask to all three arrays before computing K
and the Gaussian sum. -/
theorem C10_invalid_points_never_influence (fn : NumFuns) (model : NDModel) (nd : NDData) :
    likelihood_number_density fn model (filter_valid nd)
      = likelihood_number_density fn model nd := by
  simp only [likelihood_number_density, filter_valid]
  set mask := List.map (fun s : ℚ => decide (s > 1/10)) nd.Sig with hmask
  have hall : ∀ x ∈ applyMask nd.Sig mask, (fun s : ℚ => decide (s > 1/10)) x = true := by
    rw [hmask]
    exact fun x hx => mem_applyMask_map _ nd.Sig x hx
  have hrepl : List.map (fun s : ℚ => decide (s > 1/10)) (applyMask nd.Sig mask)
      = List.replicate (applyMask nd.Sig mask).length true :=
    map_eq_replicate_of_all _ _ hall
  have hlenS : (applyMask nd.Sig mask).length = mask.count true :=
    length_applyMask_eq_count nd.Sig mask (by rw [hmask]; simp)
  have h1 : applyMask (applyMask nd.Sig mask)
        (List.map (fun s : ℚ => decide (s > 1/10)) (applyMask nd.Sig mask))
      = applyMask nd.Sig mask := by
    rw [hrepl]
    exact applyMask_replicate_true _ _ le_rfl
  have h2 : applyMask (applyMask nd.r mask)
        (List.map (fun s : ℚ => decide (s > 1/10)) (applyMask nd.Sig mask))
      = applyMask nd.r mask := by
    rw [hrepl]
    exact applyMask_replicate_true _ _
      (by rw [hlenS]; exact length_applyMask_le_count nd.r mask)
  have h3 : applyMask (applyMask nd.dSig mask)
        (List.map (fun s : ℚ => decide (s > 1/10)) (applyMask nd.Sig mask))
      = applyMask nd.dSig mask := by
    rw [hrepl]
    exact applyMask_replicate_true _ _
      (by rw [hlenS]; exact length_applyMask_le_count nd.dSig mask)
  rw [h1, h2, h3]

/-- Counterexample to claim C7: with one retained stellar bin (mean mass
0.3), one retained remnant bin (mean mass 1.4) and one tracer dataset
(m = 2), the model's mass-bin array is [0.3, 1.4, 2] with nms = 1 — the
bins from index nms on are NOT exactly the tracer bins: the retained
remnant bin sits between the stellar bins and the tracers. -/
theorem C7_counterexample_remnants_between :
    (model_mass_bins mf1 (some obs1)).nms = 1
    ∧ (model_mass_bins mf1 (some obs1)).mj = [3/10, 7/5, 2]
    ∧ (model_mass_bins mf1 (some obs1)).mj.drop (model_mass_bins mf1 (some obs1)).nms
        ≠ tracer_masses obs1 := by
  norm_num [model_mass_bins, mf1, obs1, stellar_mask, remnant_mask, applyMask,
    tracer_masses, List.filterMap]

/-- Claim C7 (amended): indices 0..nms−1 of the mass-bin arrays are the
retained stellar bins (in the order produced by the mass-function
service), the next block holds the retained remnant bins, and the final
indices are exactly the tracer bins — one per dataset exposing an `m`
metadata value, in dataset iteration order, with total mass fixed at
0.1 each. -/
theorem C7_amended_mass_bin_layout (mf : MFResult) (dss : List TracerDataset) :
    (model_mass_bins mf (some dss)).mj
      = retained_stellar mf ++ retained_remnant mf ++ tracer_masses dss
    ∧ (model_mass_bins mf (some dss)).Mj
      = applyMask mf.Ms (stellar_mask mf) ++ applyMask mf.Mr (remnant_mask mf)
        ++ List.replicate (tracer_masses dss).length (1/10)
    ∧ (model_mass_bins mf (some dss)).nms = (retained_stellar mf).length
    ∧ (model_mass_bins mf (some dss)).mj.take (model_mass_bins mf (some dss)).nms
      = retained_stellar mf
    ∧ (model_mass_bins mf (some dss)).mj.drop
        ((model_mass_bins mf (some dss)).nms + (retained_remnant mf).length)
      = tracer_masses dss := by
  have hmj : (model_mass_bins mf (some dss)).mj
      = retained_stellar mf ++ retained_remnant mf ++ tracer_masses dss := by
    simp [model_mass_bins, retained_stellar, retained_remnant, tracer_masses]
  have hnms : (model_mass_bins mf (some dss)).nms = (retained_stellar mf).length := by
    simp [model_mass_bins, retained_stellar]
  refine ⟨hmj, ?_, hnms, ?_, ?_⟩
  · simp [model_mass_bins, tracer_masses, List.map_const']
  · rw [hmj, hnms, List.append_assoc, List.take_left]
  · rw [hmj, hnms, ← List.length_append]
    exact List.drop_left _ _

/-- Claim C8 (confirmed): for a variable carrying only the asymmetric
pair, `build_err` selects the `up` error at each sample point where the
interpolated model value strictly exceeds the observed value and the
`down` error otherwise; for a variable carrying neither the symmetric nor
the asymmetric errors it fails with the missing-uncertainty ValueError. -/
theorem C8_build_err_asymmetric (ds : ObsDataset) (v : String)
    (model_r model_val q rs up down : List ℚ)
    (hsym : lookupS ds.vars ("Δ" ++ v) = none) :
    (lookupS ds.vars ("Δ" ++ v ++ ",up") = some up →
      lookupS ds.vars ("Δ" ++ v ++ ",down") = some down →
      lookupS ds.vars v = some q →
      lookupS ds.vars "r" = some rs →
      build_err ds v model_r model_val
        = Except.ok (((q.zip (rs.map (fun x => np_interp x model_r model_val))).zip
            (up.zip down)).map (fun p => if p.1.1 < p.1.2 then p.2.1 else p.2.2)))
    ∧ ((lookupS ds.vars ("Δ" ++ v ++ ",up") = none
        ∨ lookupS ds.vars ("Δ" ++ v ++ ",down") = none) →
      build_err ds v model_r model_val = Except.error PyExc.valueError) := by
  constructor
  · intro hup hdown hq hr
    simp [build_err, hsym, hup, hdown, dget, hq, hr, build_err_select,
      Bind.bind, Except.bind, Pure.pure, Except.pure, Except.instMonad]
  · intro h
    rcases h with h | h
    · simp [build_err, hsym, h]
    · cases hup : lookupS ds.vars ("Δ" ++ v ++ ",up") <;>
        simp [build_err, hsym, hup, h]

/-- Witness for C8: a concrete dataset carrying only the asymmetric pair
for σ; the model exceeds the observation at the first point (up error 10)
and not at the second (down error 40). -/
theorem C8_witness :
    lookupS ds1.vars ("Δ" ++ "σ") = none
    ∧ lookupS ds1.vars ("Δ" ++ "σ" ++ ",up") = some [10, 20]
    ∧ lookupS ds1.vars ("Δ" ++ "σ" ++ ",down") = some [30, 40]
    ∧ build_err ds1 "σ" [1, 2] [5, 0]
        = Except.ok ((([1, 2].zip ([1, 2].map (fun x => np_interp x [1, 2] [5, 0]))).zip
            ([10, 20].zip [30, 40])).map
            (fun p => if p.1.1 < p.1.2 then p.2.1 else p.2.2)) := by
  have hsym : lookupS ds1.vars ("Δ" ++ "σ") = none := by decide
  have hup : lookupS ds1.vars ("Δ" ++ "σ" ++ ",up") = some [10, 20] := by decide
  have hdown : lookupS ds1.vars ("Δ" ++ "σ" ++ ",down") = some [30, 40] := by decide
  exact ⟨hsym, hup, hdown,
    (C8_build_err_asymmetric ds1 "σ" [1, 2] [5, 0] [1, 2] [1, 2] [10, 20] [30, 40]
      hsym).1 hup hdown (by decide) (by decide)⟩
